import Mathlib

/-!
# Shallow embedding of ttsuki/librawinput (src/librawinput.h, src/librawinput.cpp)

Machine integers are modelled as `Nat`/`Int` with explicit `% 2^w` where the C++
arithmetic can wrap; `float` arithmetic in the joystick normalizer is modelled
exactly over `ℚ`; the transcendental `cosf`/`sinf` calls and the float constant
`PI2 = acos(-1)*2` are abstracted as parameters; fallible OS calls
(`HidP_GetUsageValue`, `HidP_GetUsages`, `GetRawInputData`) are oracles passed
as `Option`-valued inputs.
-/

namespace LibRawInput

/-! ## HID usage constants (from hidusage.h, as used by the source) -/

def HID_USAGE_PAGE_GENERIC : Nat := 0x01

def HID_USAGE_PAGE_SIMULATION : Nat := 0x02

def HID_USAGE_PAGE_GAME : Nat := 0x05

def HID_USAGE_PAGE_BUTTON : Nat := 0x09

def HID_USAGE_GENERIC_X : Nat := 0x30

def HID_USAGE_GENERIC_Y : Nat := 0x31

def HID_USAGE_GENERIC_Z : Nat := 0x32

def HID_USAGE_GENERIC_RX : Nat := 0x33

def HID_USAGE_GENERIC_RY : Nat := 0x34

def HID_USAGE_GENERIC_RZ : Nat := 0x35

def HID_USAGE_GENERIC_SLIDER : Nat := 0x36

def HID_USAGE_GENERIC_HATSWITCH : Nat := 0x39

def HID_USAGE_SIMULATION_RUDDER : Nat := 0xBA

def HID_USAGE_SIMULATION_THROTTLE : Nat := 0xBB

def HID_USAGE_SIMULATION_ACCELLERATOR : Nat := 0xC4

def HID_USAGE_SIMULATION_BRAKE : Nat := 0xC5

def HID_USAGE_SIMULATION_STEERING : Nat := 0xC8

def HID_USAGE_GAME_POINT_OF_VIEW : Nat := 0x20

/-- Models `std::clamp(v, lo, hi)`: `v < lo ? lo : (hi < v ? hi : v)`. -/
def clampf (v lo hi : ℚ) : ℚ := if v < lo then lo else if hi < v then hi else v

/-- Models `static_cast<int32_t>` of an unsigned 32-bit quantity (`ULONG`). -/
def toInt32 (v : Nat) : Int :=
  if v % 2 ^ 32 < 2 ^ 31 then ((v % 2 ^ 32 : Nat) : Int)
  else ((v % 2 ^ 32 : Nat) : Int) - 2 ^ 32

/-! ## FixedVector (librawinput.h lines 89-104)

`std::array<T, TCapacity> values{}; size_t count{};` — the backing array is
modelled as a `List` whose length is the capacity (well-formedness `WF`). -/

structure FixedVector (T : Type) (cap : Nat) where
  values : List T
  count : Nat
deriving Repr, DecidableEq

namespace FixedVector

variable {T : Type} {cap : Nat}

/-- Default-constructed `FixedVector` (all slots value-initialized, `count = 0`). -/
def empty [Inhabited T] : FixedVector T cap := ⟨List.replicate cap default, 0⟩

def size (v : FixedVector T cap) : Nat := v.count

def capacity (_ : FixedVector T cap) : Nat := cap

def clear (v : FixedVector T cap) : FixedVector T cap := { v with count := 0 }

/-- Source: `void push_back(T item) { if (size() < capacity()) values[count++] = item; }` -/
def push_back (v : FixedVector T cap) (item : T) : FixedVector T cap :=
  if v.size < v.capacity then ⟨v.values.set v.count item, v.count + 1⟩ else v

/-- The `begin()`/`end()` iteration range: the first `count` backing slots. -/
def toList (v : FixedVector T cap) : List T := v.values.take v.count

/-- The backing `std::array` always has exactly `cap` slots. -/
def WF (v : FixedVector T cap) : Prop := v.values.length = cap

end FixedVector

/-! ## HidEvent data model (librawinput.h lines 156-188, fields per the .cpp
initializers in `HidEvent::Parse`) -/

structure ValueInput where
  Page : Nat
  Usage : Nat
  Value : Int
  MinValue : Int
  MaxValue : Int
deriving Repr, DecidableEq

instance : Inhabited ValueInput := ⟨⟨0, 0, 0, 0, 0⟩⟩

structure ButtonInput where
  Page : Nat
  FirstUsage : Nat
  LastUsage : Nat
  ButtonCount : Nat
  ButtonStatuses : Nat
deriving Repr, DecidableEq

instance : Inhabited ButtonInput := ⟨⟨0, 0, 0, 0, 0⟩⟩

def kMaxCountOfValues : Nat := 16

def kMaxCountOfButtonPages : Nat := 16

def kMaxCountOfButtonsPerPage : Nat := 64

structure HidEvent where
  Device : Nat
  Timestamp : Int
  Values : FixedVector ValueInput kMaxCountOfValues
  Buttons : FixedVector ButtonInput kMaxCountOfButtonPages
deriving Repr, DecidableEq

/-! ## Device capabilities (HidDeviceCaps, librawinput.cpp lines 272-282) -/

structure ValueCap where
  UsagePage : Nat
  Usage : Nat
  LogicalMin : Int
  LogicalMax : Int
deriving Repr, DecidableEq

structure ButtonCap where
  UsagePage : Nat
  IsRange : Bool
  UsageMin : Nat
  UsageMax : Nat
  Usage : Nat
deriving Repr, DecidableEq

structure HidDeviceCaps where
  ValueCaps : List ValueCap
  ButtonCaps : List ButtonCap
deriving Repr, DecidableEq

/-- Source: `const USAGE first = cap.IsRange ? cap.Range.UsageMin : cap.NotRange.Usage;` -/
def ButtonCap.first (c : ButtonCap) : Nat := if c.IsRange then c.UsageMin else c.Usage

/-- Source: `const USAGE last = cap.IsRange ? cap.Range.UsageMax : cap.NotRange.Usage;` -/
def ButtonCap.last (c : ButtonCap) : Nat := if c.IsRange then c.UsageMax else c.Usage

/-- Source: `const size_t count = cap.IsRange ? last - first + 1 : 1;` — `USAGE` values
promote to `int`; a negative difference converts to `size_t` mod `2^64`. -/
def ButtonCap.bcount (c : ButtonCap) : Nat :=
  if c.IsRange then ((c.UsageMax + 2 ^ 64 - c.UsageMin) % 2 ^ 64 + 1) % 2 ^ 64 else 1

/-! ## HidEvent::Parse (librawinput.cpp lines 505-578) -/

/-- The inner loop of the button branch of `HidEvent::Parse` (lines 556-564):
`index = usage[j] - first` (wrapping to `size_t`), bit set when
`index <= count && index < kMaxCountOfButtonsPerPage`. -/
def parseButtonMask (first : Nat) (count : Nat) (usages : List Nat) : Nat :=
  usages.foldl
    (fun acc u =>
      let index := (u + 2 ^ 64 - first) % 2 ^ 64
      if index ≤ count ∧ index < kMaxCountOfButtonsPerPage
      then acc ||| 1 <<< index
      else acc)
    0

/-- Models `HidEvent::Parse(input, timestamp, caps)`.  `osValues.get? i` models the
result of `HidP_GetUsageValue` for `caps.ValueCaps[i]` (`some value` on
`HIDP_STATUS_SUCCESS`), `osButtons.get? i` the result of `HidP_GetUsages` for
`caps.ButtonCaps[i]` (`some activeUsages` on success).  A null `caps` pointer
leaves the event empty. -/
def HidEvent.Parse (dev : Nat) (ts : Int) (caps : Option HidDeviceCaps)
    (osValues : List (Option Nat)) (osButtons : List (Option (List Nat))) : HidEvent :=
  match caps with
  | none => ⟨dev, ts, FixedVector.empty, FixedVector.empty⟩
  | some caps =>
    let values :=
      ((caps.ValueCaps.zip osValues).take kMaxCountOfValues).foldl
        (fun (acc : FixedVector ValueInput kMaxCountOfValues) p =>
          match p.2 with
          | some v =>
            acc.push_back
              ⟨p.1.UsagePage % 2 ^ 16, p.1.Usage % 2 ^ 16, toInt32 v,
                p.1.LogicalMin, p.1.LogicalMax⟩
          | none => acc)
        FixedVector.empty
    let buttons :=
      ((caps.ButtonCaps.zip osButtons).take kMaxCountOfButtonPages).foldl
        (fun (acc : FixedVector ButtonInput kMaxCountOfButtonPages) p =>
          match p.2 with
          | some usages =>
            acc.push_back
              ⟨p.1.UsagePage % 2 ^ 16, p.1.first % 2 ^ 16, p.1.last % 2 ^ 16,
                p.1.bcount % 2 ^ 16, parseButtonMask p.1.first p.1.bcount usages⟩
          | none => acc)
        FixedVector.empty
    ⟨dev, ts, values, buttons⟩

/-! ## JoystickHidEvent (librawinput.h lines 190-207) and
`JoystickHidEvent::FromHidEvent` (librawinput.cpp lines 580-735).

Float arithmetic is modelled over `ℚ`; `std::cos`, `std::sin` and the constant
`PI2 = std::acos(-1.0f) * 2.0f` are abstracted as the parameters `cosf`, `sinf`
and `pi2`. -/

structure JoystickHidEvent where
  Device : Nat
  Timestamp : Int
  X : Option ℚ := none
  Y : Option ℚ := none
  Z : Option ℚ := none
  RotX : Option ℚ := none
  RotY : Option ℚ := none
  RotZ : Option ℚ := none
  Slider0 : Option ℚ := none
  Slider1 : Option ℚ := none
  Slider2 : Option ℚ := none
  Slider3 : Option ℚ := none
  HatSwitch0 : Option ℚ := none
  HatSwitch1 : Option ℚ := none
  HatSwitch0X : Option ℚ := none
  HatSwitch0Y : Option ℚ := none
  HatSwitch1X : Option ℚ := none
  HatSwitch1Y : Option ℚ := none
  ButtonCount : Nat := 0
  Buttons : Nat := 0
deriving Repr, DecidableEq

/-- The `normalize_axis` lambda (librawinput.cpp lines 584-591): with the locals
`val`, `min`, `max`, `center = (max - min) / 2.0f` inlined, it returns
`clamp((val - center) / center, -1, 1)`. -/
def normalize_axis (v : ValueInput) : ℚ :=
  clampf (((v.Value : ℚ) - ((v.MaxValue : ℚ) - (v.MinValue : ℚ)) / 2) /
      (((v.MaxValue : ℚ) - (v.MinValue : ℚ)) / 2)) (-1) 1

/-- The `normalize_throttle` lambda (librawinput.cpp lines 593-606): with the
locals `val`, `min`, `max`, `ragne = max - min` inlined, it returns
`clamp((val - min) / ragne, 0, 1)` when `min <= val && val <= max` and
`nullopt` otherwise. -/
def normalize_throttle (v : ValueInput) : Option ℚ :=
  if (v.MinValue : ℚ) ≤ (v.Value : ℚ) ∧ (v.Value : ℚ) ≤ (v.MaxValue : ℚ) then
    some (clampf (((v.Value : ℚ) - (v.MinValue : ℚ)) / ((v.MaxValue : ℚ) - (v.MinValue : ℚ))) 0 1)
  else none

/-- Loop state of the value loop in `FromHidEvent`:
the event under construction plus `slider_count` and `hat_switch_count`. -/
structure JoyState where
  r : JoystickHidEvent
  slider_count : Nat
  hat_switch_count : Nat

/-- The `value.Page == HID_USAGE_PAGE_GENERIC` switch (lines 614-678).
Note `switch (slider_count++)` / `switch (hat_switch_count++)`: the counter is
incremented even for the ignored 5th+ slider / 3rd+ hat switch, and
`r.HatSwitchNX = r.HatSwitchN ? cos(...) : 0.0f` always assigns an engaged
`optional<float>` (zero when the hat value was out of range). -/
def stepGeneric (cosf sinf : ℚ → ℚ) (pi2 : ℚ) (st : JoyState) (v : ValueInput) : JoyState :=
  let r := st.r
  if v.Usage = HID_USAGE_GENERIC_X then { st with r := { r with X := some (normalize_axis v) } }
  else if v.Usage = HID_USAGE_GENERIC_Y then { st with r := { r with Y := some (normalize_axis v) } }
  else if v.Usage = HID_USAGE_GENERIC_Z then { st with r := { r with Z := some (normalize_axis v) } }
  else if v.Usage = HID_USAGE_GENERIC_RX then { st with r := { r with RotX := some (normalize_axis v) } }
  else if v.Usage = HID_USAGE_GENERIC_RY then { st with r := { r with RotY := some (normalize_axis v) } }
  else if v.Usage = HID_USAGE_GENERIC_RZ then { st with r := { r with RotZ := some (normalize_axis v) } }
  else if v.Usage = HID_USAGE_GENERIC_SLIDER then
    let r' :=
      match st.slider_count with
      | 0 => { r with Slider0 := normalize_throttle v }
      | 1 => { r with Slider1 := normalize_throttle v }
      | 2 => { r with Slider2 := normalize_throttle v }
      | 3 => { r with Slider3 := normalize_throttle v }
      | _ => r
    { st with r := r', slider_count := st.slider_count + 1 }
  else if v.Usage = HID_USAGE_GENERIC_HATSWITCH then
    let r' :=
      match st.hat_switch_count with
      | 0 =>
        let h := normalize_throttle v
        { r with
          HatSwitch0 := h
          HatSwitch0X := some (match h with | some t => cosf (t * pi2) | none => 0)
          HatSwitch0Y := some (match h with | some t => sinf (t * pi2) | none => 0) }
      | 1 =>
        let h := normalize_throttle v
        { r with
          HatSwitch1 := h
          HatSwitch1X := some (match h with | some t => cosf (t * pi2) | none => 0)
          HatSwitch1Y := some (match h with | some t => sinf (t * pi2) | none => 0) }
      | _ => r
    { st with r := r', hat_switch_count := st.hat_switch_count + 1 }
  else st

/-- The `value.Page == HID_USAGE_PAGE_SIMULATION` switch (lines 680-702). -/
def stepSimulation (st : JoyState) (v : ValueInput) : JoyState :=
  let r := st.r
  if v.Usage = HID_USAGE_SIMULATION_STEERING then { st with r := { r with X := some (normalize_axis v) } }
  else if v.Usage = HID_USAGE_SIMULATION_ACCELLERATOR then { st with r := { r with Y := some (normalize_axis v) } }
  else if v.Usage = HID_USAGE_SIMULATION_BRAKE then { st with r := { r with Z := some (normalize_axis v) } }
  else if v.Usage = HID_USAGE_SIMULATION_RUDDER then { st with r := { r with RotZ := some (normalize_axis v) } }
  else if v.Usage = HID_USAGE_SIMULATION_THROTTLE then { st with r := { r with Slider0 := normalize_throttle v } }
  else st

/-- The `value.Page == HID_USAGE_PAGE_GAME` switch (lines 704-716). -/
def stepGame (cosf sinf : ℚ → ℚ) (pi2 : ℚ) (st : JoyState) (v : ValueInput) : JoyState :=
  let r := st.r
  if v.Usage = HID_USAGE_GAME_POINT_OF_VIEW then
    let h := normalize_throttle v
    { st with r :=
        { r with
          HatSwitch0 := h
          HatSwitch0X := some (match h with | some t => cosf (t * pi2) | none => 0)
          HatSwitch0Y := some (match h with | some t => sinf (t * pi2) | none => 0) } }
  else st

/-- One iteration of the `for (auto&& value : e.Values)` loop (lines 612-717):
the three page blocks are independent `if`s executed in sequence. -/
def stepValue (cosf sinf : ℚ → ℚ) (pi2 : ℚ) (st : JoyState) (v : ValueInput) : JoyState :=
  let st := if v.Page = HID_USAGE_PAGE_GENERIC then stepGeneric cosf sinf pi2 st v else st
  let st := if v.Page = HID_USAGE_PAGE_SIMULATION then stepSimulation st v else st
  let st := if v.Page = HID_USAGE_PAGE_GAME then stepGame cosf sinf pi2 st v else st
  st

/-- The `for (auto&& p : e.Buttons)` loop (lines 719-730): state is
`(button_index : uint32_t, button_status : uint64_t)`; for a
`HID_USAGE_PAGE_BUTTON` page the statuses are OR-ed in at the current bit
offset and the offset grows by `p.ButtonCount`; the loop breaks as soon as
`button_index >= 64` (checked after every element). -/
def processButtons : List ButtonInput → Nat → Nat → Nat × Nat
  | [], button_index, button_status => (button_index, button_status)
  | p :: rest, button_index, button_status =>
    if p.Page = HID_USAGE_PAGE_BUTTON then
      if (button_index + p.ButtonCount) % 2 ^ 32 ≥ 64 then
        ((button_index + p.ButtonCount) % 2 ^ 32,
          (button_status ||| p.ButtonStatuses <<< button_index) % 2 ^ 64)
      else
        processButtons rest ((button_index + p.ButtonCount) % 2 ^ 32)
          ((button_status ||| p.ButtonStatuses <<< button_index) % 2 ^ 64)
    else
      if button_index ≥ 64 then (button_index, button_status)
      else processButtons rest button_index button_status

/-- Models `JoystickHidEvent::FromHidEvent(e)` (librawinput.cpp lines 580-735). -/
def JoystickHidEvent.FromHidEvent (cosf sinf : ℚ → ℚ) (pi2 : ℚ) (e : HidEvent) : JoystickHidEvent :=
  let st0 : JoyState := ⟨{ Device := e.Device, Timestamp := e.Timestamp }, 0, 0⟩
  let st := e.Values.toList.foldl (stepValue cosf sinf pi2) st0
  let bs := processButtons e.Buttons.toList 0 0
  { st.r with ButtonCount := bs.1, Buttons := (st.r.Buttons ||| bs.2) % 2 ^ 64 }

/-! ## The event pump (RawInputEventListenerImpl, librawinput.cpp lines 284-435) -/

/-- The `RAWINPUT::header.dwType` classification. -/
inductive DwType where
  | keyboard
  | mouse
  | hid
deriving Repr, DecidableEq

/-- A successfully read `RAWINPUT` buffer, with the per-report OS oracles the
HID branch feeds into `HidEvent::Parse`. -/
structure RawData where
  dwType : DwType
  hDevice : Nat
  osValues : List (Option Nat)
  osButtons : List (Option (List Nat))
deriving Repr, DecidableEq

/-- Which of the five optional callbacks are registered (non-empty
`std::function` fields of `RawInputCallbacks`). -/
structure CallbacksPresent where
  raw : Bool
  keyboard : Bool
  mouse : Bool
  hid : Bool
  joystick : Bool
deriving Repr, DecidableEq

/-- One callback invocation performed by `ProcessWMInput`, with its payload. -/
inductive Invocation where
  | rawInput (data : Option RawData)
  | keyboardEvent (dev : Nat)
  | mouseEvent (dev : Nat)
  | hidEvent (e : HidEvent)
  | joystickEvent (r : JoystickHidEvent)
deriving Repr, DecidableEq

/-- Returns `true` exactly for the HID-level (hid / joystick) invocations. -/
def Invocation.isHidLevel : Invocation → Bool
  | .hidEvent _ => true
  | .joystickEvent _ => true
  | _ => false

/-- Models `RawInputEventListenerImpl::ProcessWMInput` (librawinput.cpp lines 355-429).

* `readResult` is the outcome of the `input_data_buffer` lambda (lines
  360-387): `none` when `GetRawInputData` failed both on the 4096-byte stack
  buffer and after the single probe-then-allocate retry, in which case the
  lambda logs and returns a null pointer.
* `cache` is `preparsed_data_cache_`: `none` = handle absent from the map,
  `some none` = cached negative result (`HidDeviceCaps::FromDevice` returned
  null), `some (some caps)` = resolved capabilities.
* Result: the list of callback invocations performed, paired with `true` when
  execution reaches a dereference of the null report pointer
  (`data->header.dwType` with `data == nullptr`) — the raw callback at lines
  393-396 has already been invoked with the null pointer by that point. -/
def processWMInput (cosf sinf : ℚ → ℚ) (pi2 : ℚ) (cbs : CallbacksPresent)
    (cache : Nat → Option (Option HidDeviceCaps)) (now : Int)
    (readResult : Option RawData) : List Invocation × Bool :=
  let rawInv : List Invocation := if cbs.raw then [.rawInput readResult] else []
  match readResult with
  | none => (rawInv, cbs.keyboard || cbs.mouse || cbs.hid || cbs.joystick)
  | some d =>
    let kb : List Invocation :=
      if cbs.keyboard ∧ d.dwType = .keyboard then [.keyboardEvent d.hDevice] else []
    let ms : List Invocation :=
      if cbs.mouse ∧ d.dwType = .mouse then [.mouseEvent d.hDevice] else []
    let hid : List Invocation :=
      if (cbs.hid ∨ cbs.joystick) ∧ d.dwType = .hid then
        match cache d.hDevice with
        | some (some caps) =>
          let e := HidEvent.Parse d.hDevice now (some caps) d.osValues d.osButtons
          (if cbs.hid then [.hidEvent e] else []) ++
            (if cbs.joystick then
              [.joystickEvent (JoystickHidEvent.FromHidEvent cosf sinf pi2 e)] else [])
        | _ => []
      else []
    (rawInv ++ kb ++ ms ++ hid, false)

/-- Models `RawInputEventListenerImpl::RegisterDevices` (librawinput.cpp lines
333-353): when `RegisterRawInputDevices` fails it writes a debug log and
returns `LRESULT 1`, otherwise `0`.  Result: `(LRESULT, loggedFailure)`. -/
def registerDevices (osRegisterOk : Bool) : Int × Bool :=
  if osRegisterOk then (0, false) else (1, true)

/-- Delivery via `PostMessageA`: it queues the message and returns immediately; the window
procedure's `LRESULT` is never reported back to the poster. -/
def postMessageResult (_ : Int) : Option Int := none

/-- Delivery via `SendMessageA` would deliver the window procedure's `LRESULT` to the
caller; the listener's constructor does not use it for registration. -/
def sendMessageResult (r : Int) : Option Int := some r

/-- What `StartRawInput` hands back to the caller, as observable through the
shallow embedding: the listener handle always exists (the constructor has no
failure path for registration), `pumpRegistered` records whether
`RegisterRawInputDevices` succeeded on the pump thread, and
`registerResultSeenByCaller` is what the constructor learns of that result. -/
structure ListenerHandle where
  pumpRegistered : Bool
  registerResultSeenByCaller : Option Int
deriving Repr, DecidableEq

/-- Models `StartRawInput` (librawinput.cpp lines 432-435), which constructs a
`RawInputEventListenerImpl` (lines 294-319): the constructor posts
`WM_REGISTER_DEVICE` with `PostMessageToWindow` (line 318) and returns; the
pump thread later runs `RegisterDevices`, whose `LRESULT` the posted delivery
discards. -/
def StartRawInput (osRegisterOk : Bool) : ListenerHandle :=
  { pumpRegistered := osRegisterOk
    registerResultSeenByCaller := postMessageResult (registerDevices osRegisterOk).1 }

/-! ## Spec-side reference definitions

These are written from the specification's wording (not from the source) and
are compared with the source-derived definitions above. -/

/-- The alternative axis formula the spec explicitly rejects:
`(value - min) / (max - min) * 2 - 1` (clamped to `[-1, 1]`). -/
def axisAlt (value mn mx : ℚ) : ℚ :=
  clampf ((value - mn) / (mx - mn) * 2 - 1) (-1) 1

/-- Sum of `ButtonCount` over the `HID_USAGE_PAGE_BUTTON` entries of a list. -/
def sumButtonCounts : List ButtonInput → Nat
  | [] => 0
  | p :: l =>
    (if p.Page = HID_USAGE_PAGE_BUTTON then p.ButtonCount else 0) + sumButtonCounts l

/-- The prefix of the button-page list the concatenation loop actually
processes, starting from bit-offset total `acc < 64`: pages are taken in
order and the list is cut immediately after the first button page that brings
the running button-count total to 64 or more. -/
def buttonPagesProcessed : List ButtonInput → Nat → List ButtonInput
  | [], _ => []
  | p :: rest, acc =>
    if p.Page = HID_USAGE_PAGE_BUTTON then
      if acc + p.ButtonCount ≥ 64 then [p]
      else p :: buttonPagesProcessed rest (acc + p.ButtonCount)
    else p :: buttonPagesProcessed rest acc

/-! ## Helper lemmas -/

theorem normalize_throttle_eq (v : ValueInput) :
    normalize_throttle v =
      if v.MinValue ≤ v.Value ∧ v.Value ≤ v.MaxValue then
        some (clampf (((v.Value : ℚ) - (v.MinValue : ℚ)) /
            ((v.MaxValue : ℚ) - (v.MinValue : ℚ))) 0 1)
      else none := by
  unfold normalize_throttle
  by_cases h : v.MinValue ≤ v.Value ∧ v.Value ≤ v.MaxValue
  · rw [if_pos h, if_pos ⟨by exact_mod_cast h.1, by exact_mod_cast h.2⟩]
  · rw [if_neg h, if_neg]
    exact fun hq => h ⟨by exact_mod_cast hq.1, by exact_mod_cast hq.2⟩

theorem FixedVector.push_back_count_le {T : Type} {cap : Nat}
    (v : FixedVector T cap) (x : T) (h : v.count ≤ cap) :
    (v.push_back x).count ≤ cap := by
  unfold FixedVector.push_back FixedVector.size FixedVector.capacity
  split
  · exact Nat.succ_le_of_lt (by assumption)
  · exact h

theorem foldl_push_count_le {T S : Type} {cap : Nat}
    (f : FixedVector T cap → S → FixedVector T cap)
    (hf : ∀ acc s, acc.count ≤ cap → (f acc s).count ≤ cap) :
    ∀ (l : List S) (acc : FixedVector T cap), acc.count ≤ cap →
      (l.foldl f acc).count ≤ cap := by
  intro l
  induction l with
  | nil => exact fun acc h => h
  | cons s rest ih => exact fun acc h => ih (f acc s) (hf acc s h)

theorem sumButtonCounts_cons (p : ButtonInput) (l : List ButtonInput) :
    sumButtonCounts (p :: l) =
      (if p.Page = HID_USAGE_PAGE_BUTTON then p.ButtonCount else 0) + sumButtonCounts l := rfl

theorem processButtons_idx (l : List ButtonInput) (idx s : Nat)
    (hidx : idx < 64) (hc : ∀ p ∈ l, p.ButtonCount < 2 ^ 16) :
    (processButtons l idx s).1 = idx + sumButtonCounts (buttonPagesProcessed l idx) := by
  induction l generalizing idx s with
  | nil => rfl
  | cons p rest ih =>
    have hp : p.ButtonCount < 2 ^ 16 := hc p (by simp)
    have hrest : ∀ q ∈ rest, q.ButtonCount < 2 ^ 16 := fun q hq => hc q (by simp [hq])
    unfold processButtons buttonPagesProcessed
    by_cases hpage : p.Page = HID_USAGE_PAGE_BUTTON
    · have hmod : (idx + p.ButtonCount) % 2 ^ 32 = idx + p.ButtonCount :=
        Nat.mod_eq_of_lt (by omega)
      rw [if_pos hpage, if_pos hpage, hmod]
      by_cases hbig : idx + p.ButtonCount ≥ 64
      · rw [if_pos hbig, if_pos hbig, sumButtonCounts_cons, if_pos hpage]
        rfl
      · rw [if_neg hbig, if_neg hbig, ih (idx + p.ButtonCount) _ (by omega) hrest,
          sumButtonCounts_cons, if_pos hpage]
        omega
    · rw [if_neg hpage, if_neg hpage, if_neg (by omega : ¬ idx ≥ 64),
        ih idx s hidx hrest, sumButtonCounts_cons, if_neg hpage]
      omega

theorem processButtons_idx_total (l : List ButtonInput) (idx s : Nat)
    (hidx : idx < 64) (htot : idx + sumButtonCounts l ≤ 64) :
    (processButtons l idx s).1 = idx + sumButtonCounts l := by
  induction l generalizing idx s with
  | nil => rfl
  | cons p rest ih =>
    by_cases hpage : p.Page = HID_USAGE_PAGE_BUTTON
    · rw [sumButtonCounts_cons, if_pos hpage] at htot ⊢
      have hmod : (idx + p.ButtonCount) % 2 ^ 32 = idx + p.ButtonCount :=
        Nat.mod_eq_of_lt (by omega)
      unfold processButtons
      rw [if_pos hpage, hmod]
      by_cases hbig : idx + p.ButtonCount ≥ 64
      · rw [if_pos hbig]
        show idx + p.ButtonCount = idx + (p.ButtonCount + sumButtonCounts rest)
        omega
      · rw [if_neg hbig, ih (idx + p.ButtonCount) _ (by omega) (by omega)]
        omega
    · rw [sumButtonCounts_cons, if_neg hpage] at htot ⊢
      unfold processButtons
      rw [if_neg hpage, if_neg (by omega : ¬ idx ≥ 64),
        ih idx s hidx (by omega)]
      omega

theorem processButtons_status_lt (l : List ButtonInput) (idx s : Nat)
    (hs : s < 2 ^ 64) : (processButtons l idx s).2 < 2 ^ 64 := by
  induction l generalizing idx s with
  | nil => exact hs
  | cons p rest ih =>
    unfold processButtons
    by_cases hpage : p.Page = HID_USAGE_PAGE_BUTTON
    · rw [if_pos hpage]
      by_cases hbig : (idx + p.ButtonCount) % 2 ^ 32 ≥ 64
      · rw [if_pos hbig]
        exact Nat.mod_lt _ (by norm_num)
      · rw [if_neg hbig]
        exact ih _ _ (Nat.mod_lt _ (by norm_num))
    · rw [if_neg hpage]
      by_cases hbig : idx ≥ 64
      · rw [if_pos hbig]
        exact hs
      · rw [if_neg hbig]
        exact ih _ _ hs

/-! ## Claims -/

/-- Claim C1 (code bug): the claim says a reported usage `u` sets a bit only
when `u ∈ [firstUsage, firstUsage + count)`, i.e. `index < count`.  The
source's check at librawinput.cpp line 560 is the inclusive `index <= count`:
for a button field with `UsageMin = 1`, `UsageMax = 4` (`first = 1`,
`count = 4`), the reported usage `5` has `index = 4 = count`, lies outside
`[1, 1 + 4)`, and nevertheless sets bit 4 of the mask (mask `= 16`). -/
theorem claim_C1_eval :
    (HidEvent.Parse 0 0 (some ⟨[], [⟨9, true, 1, 4, 0⟩]⟩) [] [some [5]]).Buttons.toList =
      [⟨9, 1, 4, 4, 16⟩] ∧
    Nat.testBit 16 4 = true ∧
    ¬ (1 ≤ 5 ∧ 5 < 1 + 4) := by
  refine ⟨by decide, by decide, by decide⟩

/-- Claim C4 (code bug): when `GetRawInputData` fails even after the fixed
probe-then-allocate retry, the claim says no registered callback fires for
that event and processing continues.  In the source the `input_data_buffer`
lambda logs and returns a null pointer, but `ProcessWMInput` then (a) still
invokes the registered `RawInputEventCallback` with that null pointer
(lines 393-396) and (b) dereferences the null pointer at
`data->header.dwType` as soon as any keyboard/mouse/HID callback is
registered (lines 398, 404, 410). -/
theorem claim_C4_eval :
    processWMInput (fun x => x) (fun x => x) 0 ⟨true, true, true, true, true⟩
        (fun _ => none) 0 none = ([Invocation.rawInput none], true) ∧
    processWMInput (fun x => x) (fun x => x) 0 ⟨true, false, false, false, false⟩
        (fun _ => none) 0 none = ([Invocation.rawInput none], false) :=
  ⟨rfl, rfl⟩

/-- Claim C6 counterexample: with `RegisterRawInputDevices` failing,
`StartRawInput` still returns a listener handle whose pump is unregistered,
and the caller sees nothing of the failure; the failing `LRESULT 1` is
produced (and logged) only on the pump thread. -/
theorem claim_C6_cex :
    StartRawInput false = ⟨false, none⟩ ∧ registerDevices false = (1, true) :=
  ⟨rfl, rfl⟩

/-- Claim C6 (amended): registration failure at listener start-up is not
surfaced to the caller.  The constructor posts `WM_REGISTER_DEVICE`
asynchronously, so the `LRESULT` of `RegisterDevices` is discarded (a
`SendMessage` would have carried it); `StartRawInput` returns a handle
regardless, and the pump is functional exactly when the OS registration
succeeded. -/
theorem claim_C6_thm (osRegisterOk : Bool) :
    (StartRawInput osRegisterOk).registerResultSeenByCaller = none ∧
    (StartRawInput osRegisterOk).pumpRegistered = osRegisterOk ∧
    sendMessageResult (registerDevices osRegisterOk).1 =
      some (if osRegisterOk then 0 else 1) := by
  refine ⟨rfl, rfl, ?_⟩
  cases osRegisterOk <;> rfl

/-- Claim C7: `normalize_axis` equals the spec formula
`clamp((value - center) / center, -1, 1)` with `center = (max - min) / 2`;
the three pinned instances hold; the formula differs from the rejected
alternative `(value - min) / (max - min) * 2 - 1` (at `{50, 50, 150}` the
source gives `0`, the alternative `-1`); and a generic-desktop X value field
feeds this formula into the `X` slot of `JoystickHidEvent::FromHidEvent`. -/
theorem claim_C7_thm :
    (∀ v : ValueInput,
      normalize_axis v =
        clampf (((v.Value : ℚ) - ((v.MaxValue : ℚ) - (v.MinValue : ℚ)) / 2) /
            (((v.MaxValue : ℚ) - (v.MinValue : ℚ)) / 2)) (-1) 1) ∧
    normalize_axis ⟨HID_USAGE_PAGE_GENERIC, HID_USAGE_GENERIC_X, 75, 0, 150⟩ = 0 ∧
    normalize_axis ⟨HID_USAGE_PAGE_GENERIC, HID_USAGE_GENERIC_X, 0, 0, 150⟩ = -1 ∧
    normalize_axis ⟨HID_USAGE_PAGE_GENERIC, HID_USAGE_GENERIC_X, 150, 0, 150⟩ = 1 ∧
    normalize_axis ⟨HID_USAGE_PAGE_GENERIC, HID_USAGE_GENERIC_X, 50, 50, 150⟩ ≠
      axisAlt 50 50 150 ∧
    (∀ (cosf sinf : ℚ → ℚ) (pi2 : ℚ) (dev : Nat) (ts : Int) (val mn mx : Int),
      (JoystickHidEvent.FromHidEvent cosf sinf pi2
          ⟨dev, ts, FixedVector.empty.push_back
            ⟨HID_USAGE_PAGE_GENERIC, HID_USAGE_GENERIC_X, val, mn, mx⟩,
            FixedVector.empty⟩).X =
        some (normalize_axis ⟨HID_USAGE_PAGE_GENERIC, HID_USAGE_GENERIC_X, val, mn, mx⟩)) :=
  ⟨fun _ => rfl,
    by norm_num [normalize_axis, clampf],
    by norm_num [normalize_axis, clampf],
    by norm_num [normalize_axis, clampf],
    by norm_num [normalize_axis, axisAlt, clampf],
    fun _ _ _ _ _ _ _ _ => rfl⟩

/-- Claim C8: `normalize_throttle` returns
`clamp((value - min) / (max - min), 0, 1)` exactly when `min ≤ value ≤ max`
and is absent (`none`) otherwise — in particular `{200, 0, 150}` yields
`none`, not `1`; and a generic-desktop Slider value field feeds this formula
into the `Slider0` slot of `JoystickHidEvent::FromHidEvent`. -/
theorem claim_C8_thm :
    (∀ v : ValueInput,
      normalize_throttle v =
        if v.MinValue ≤ v.Value ∧ v.Value ≤ v.MaxValue then
          some (clampf (((v.Value : ℚ) - (v.MinValue : ℚ)) /
              ((v.MaxValue : ℚ) - (v.MinValue : ℚ))) 0 1)
        else none) ∧
    normalize_throttle ⟨HID_USAGE_PAGE_GENERIC, HID_USAGE_GENERIC_SLIDER, 200, 0, 150⟩ = none ∧
    (∀ (cosf sinf : ℚ → ℚ) (pi2 : ℚ) (dev : Nat) (ts : Int) (val mn mx : Int),
      (JoystickHidEvent.FromHidEvent cosf sinf pi2
          ⟨dev, ts, FixedVector.empty.push_back
            ⟨HID_USAGE_PAGE_GENERIC, HID_USAGE_GENERIC_SLIDER, val, mn, mx⟩,
            FixedVector.empty⟩).Slider0 =
        normalize_throttle ⟨HID_USAGE_PAGE_GENERIC, HID_USAGE_GENERIC_SLIDER, val, mn, mx⟩) :=
  ⟨normalize_throttle_eq,
    by rw [normalize_throttle_eq, if_neg (by decide)],
    fun _ _ _ _ _ _ _ _ => rfl⟩

/-- Claim C2 counterexample: for button pages `{count 10}` then `{count 60}`
(both on the button page), `FromHidEvent` reports `ButtonCount = 70`,
contradicting the claim that `ButtonCount` is never greater than 64. -/
theorem claim_C2_cex :
    (JoystickHidEvent.FromHidEvent (fun x => x) (fun x => x) 0
        ⟨0, 0, FixedVector.empty,
          (FixedVector.empty.push_back ⟨9, 1, 10, 10, 0⟩).push_back
            ⟨9, 11, 70, 60, 0⟩⟩).ButtonCount = 70 ∧
    64 < 70 := by
  refine ⟨rfl, by norm_num⟩

/-- Claim C3 counterexample: a generic-desktop HatSwitch value field with
value 8 outside `[0, 7]` leaves `HatSwitch0` absent but zero-fills the
derived unit-vector components: `HatSwitch0X = HatSwitch0Y = some 0`,
contradicting the claim that all three are absent. -/
theorem claim_C3_cex :
    (JoystickHidEvent.FromHidEvent (fun x => x) (fun x => x) 0
        ⟨0, 0, FixedVector.empty.push_back ⟨1, 0x39, 8, 0, 7⟩,
          FixedVector.empty⟩).HatSwitch0 = none ∧
    (JoystickHidEvent.FromHidEvent (fun x => x) (fun x => x) 0
        ⟨0, 0, FixedVector.empty.push_back ⟨1, 0x39, 8, 0, 7⟩,
          FixedVector.empty⟩).HatSwitch0X = some 0 ∧
    (JoystickHidEvent.FromHidEvent (fun x => x) (fun x => x) 0
        ⟨0, 0, FixedVector.empty.push_back ⟨1, 0x39, 8, 0, 7⟩,
          FixedVector.empty⟩).HatSwitch0Y = some 0 := by
  have h : normalize_throttle ⟨1, 0x39, 8, 0, 7⟩ = none := by
    rw [normalize_throttle_eq, if_neg (by decide)]
  refine ⟨h, ?_, ?_⟩
  · rw [show (JoystickHidEvent.FromHidEvent (fun x => x) (fun x => x) 0
        ⟨0, 0, FixedVector.empty.push_back ⟨1, 0x39, 8, 0, 7⟩,
          FixedVector.empty⟩).HatSwitch0X =
        some (match normalize_throttle ⟨1, 0x39, 8, 0, 7⟩ with
          | some t => t * 0 | none => (0 : ℚ)) from rfl, h]
  · rw [show (JoystickHidEvent.FromHidEvent (fun x => x) (fun x => x) 0
        ⟨0, 0, FixedVector.empty.push_back ⟨1, 0x39, 8, 0, 7⟩,
          FixedVector.empty⟩).HatSwitch0Y =
        some (match normalize_throttle ⟨1, 0x39, 8, 0, 7⟩ with
          | some t => t * 0 | none => (0 : ℚ)) from rfl, h]

/-- Claim C5 counterexample: with the Simulation-page Steering field listed
before the generic-desktop X field, the generic-desktop value (not the
Simulation value) determines `X`: the decoded list order decides, not the
page. -/
theorem claim_C5_cex :
    (JoystickHidEvent.FromHidEvent (fun x => x) (fun x => x) 0
        ⟨0, 0, (FixedVector.empty.push_back ⟨2, 0xC8, 10, 0, 100⟩).push_back
            ⟨1, 0x30, 90, 0, 100⟩,
          FixedVector.empty⟩).X = some (4 / 5) ∧
    normalize_axis ⟨2, 0xC8, 10, 0, 100⟩ = -(4 / 5) ∧
    some ((4 : ℚ) / 5) ≠ some (-(4 / 5) : ℚ) := by
  have hg : normalize_axis ⟨1, 0x30, 90, 0, 100⟩ = 4 / 5 := by
    norm_num [normalize_axis, clampf]
  have hs : normalize_axis ⟨2, 0xC8, 10, 0, 100⟩ = -(4 / 5) := by
    norm_num [normalize_axis, clampf]
  refine ⟨?_, hs, ?_⟩
  · rw [show (JoystickHidEvent.FromHidEvent (fun x => x) (fun x => x) 0
        ⟨0, 0, (FixedVector.empty.push_back ⟨2, 0xC8, 10, 0, 100⟩).push_back
            ⟨1, 0x30, 90, 0, 100⟩,
          FixedVector.empty⟩).X = some (normalize_axis ⟨1, 0x30, 90, 0, 100⟩) from rfl, hg]
  · simp only [ne_eq, Option.some.injEq]
    norm_num

/-- Claim C2 (amended): button-page bitmasks are concatenated in cache order
at a growing bit offset and the loop stops after the first button page that
brings the offset to 64 or more; the 64-bit mask is truncated at 64 bits; but
`ButtonCount` equals the sum of the `ButtonCount` fields of all processed
button pages — which may exceed 64 when the last processed page overshoots —
and equals the full sum (hence is at most 64) only when the total over all
pages is at most 64. -/
theorem claim_C2_thm (cosf sinf : ℚ → ℚ) (pi2 : ℚ) (e : HidEvent)
    (hc : ∀ p ∈ e.Buttons.toList, p.ButtonCount < 2 ^ 16) :
    (JoystickHidEvent.FromHidEvent cosf sinf pi2 e).ButtonCount =
      sumButtonCounts (buttonPagesProcessed e.Buttons.toList 0) ∧
    (JoystickHidEvent.FromHidEvent cosf sinf pi2 e).Buttons < 2 ^ 64 ∧
    (sumButtonCounts e.Buttons.toList ≤ 64 →
      (JoystickHidEvent.FromHidEvent cosf sinf pi2 e).ButtonCount =
        sumButtonCounts e.Buttons.toList) := by
  have h1 : (JoystickHidEvent.FromHidEvent cosf sinf pi2 e).ButtonCount =
      (processButtons e.Buttons.toList 0 0).1 := rfl
  have h2 : (JoystickHidEvent.FromHidEvent cosf sinf pi2 e).Buttons =
      ((e.Values.toList.foldl (stepValue cosf sinf pi2)
            ⟨{ Device := e.Device, Timestamp := e.Timestamp }, 0, 0⟩).r.Buttons |||
          (processButtons e.Buttons.toList 0 0).2) % 2 ^ 64 := rfl
  refine ⟨?_, ?_, ?_⟩
  · rw [h1, processButtons_idx _ 0 0 (by norm_num) hc]
    omega
  · rw [h2]
    exact Nat.mod_lt _ (by norm_num)
  · intro htot
    rw [h1, processButtons_idx_total _ 0 0 (by norm_num) (by omega)]
    omega

/-- Claim C2 witness: a single button page of 4 buttons gives
`ButtonCount = 4`, the processed-prefix sum. -/
theorem claim_C2_wit :
    (JoystickHidEvent.FromHidEvent (fun x => x) (fun x => x) 0
        ⟨5, 3, FixedVector.empty,
          FixedVector.empty.push_back ⟨9, 1, 4, 4, 3⟩⟩).ButtonCount =
      sumButtonCounts (buttonPagesProcessed
        (HidEvent.Buttons ⟨5, 3, FixedVector.empty,
          FixedVector.empty.push_back ⟨9, 1, 4, 4, 3⟩⟩).toList 0) :=
  (claim_C2_thm (fun x => x) (fun x => x) 0
    ⟨5, 3, FixedVector.empty, FixedVector.empty.push_back ⟨9, 1, 4, 4, 3⟩⟩
    (by decide)).1

/-- Claim C3 (amended): for a generic-desktop HatSwitch (or Game-page
PointOfView) value field, when the value lies in `[min, max]` the slot holds
the `[0,1]`-normalized value `t` and the derived components are
`cos(t·2π)` / `sin(t·2π)`; when the value is out of range the `HatSwitch0`
slot is absent but the derived X and Y components are zero-filled
(`some 0`), not absent. -/
theorem claim_C3_thm (cosf sinf : ℚ → ℚ) (pi2 : ℚ) (dev : Nat) (ts : Int)
    (pg us : Nat) (v mn mx : Int)
    (hpu : (pg = HID_USAGE_PAGE_GENERIC ∧ us = HID_USAGE_GENERIC_HATSWITCH) ∨
      (pg = HID_USAGE_PAGE_GAME ∧ us = HID_USAGE_GAME_POINT_OF_VIEW)) :
    (JoystickHidEvent.FromHidEvent cosf sinf pi2
        ⟨dev, ts, FixedVector.empty.push_back ⟨pg, us, v, mn, mx⟩,
          FixedVector.empty⟩).HatSwitch0 =
      (if mn ≤ v ∧ v ≤ mx then
        some (clampf (((v : ℚ) - (mn : ℚ)) / ((mx : ℚ) - (mn : ℚ))) 0 1) else none) ∧
    (JoystickHidEvent.FromHidEvent cosf sinf pi2
        ⟨dev, ts, FixedVector.empty.push_back ⟨pg, us, v, mn, mx⟩,
          FixedVector.empty⟩).HatSwitch0X =
      (if mn ≤ v ∧ v ≤ mx then
        some (cosf (clampf (((v : ℚ) - (mn : ℚ)) / ((mx : ℚ) - (mn : ℚ))) 0 1 * pi2))
      else some 0) ∧
    (JoystickHidEvent.FromHidEvent cosf sinf pi2
        ⟨dev, ts, FixedVector.empty.push_back ⟨pg, us, v, mn, mx⟩,
          FixedVector.empty⟩).HatSwitch0Y =
      (if mn ≤ v ∧ v ≤ mx then
        some (sinf (clampf (((v : ℚ) - (mn : ℚ)) / ((mx : ℚ) - (mn : ℚ))) 0 1 * pi2))
      else some 0) := by
  rcases hpu with ⟨hp, hu⟩ | ⟨hp, hu⟩ <;> subst hp <;> subst hu
  · have h0 : (JoystickHidEvent.FromHidEvent cosf sinf pi2
        ⟨dev, ts, FixedVector.empty.push_back
          ⟨HID_USAGE_PAGE_GENERIC, HID_USAGE_GENERIC_HATSWITCH, v, mn, mx⟩,
          FixedVector.empty⟩).HatSwitch0 =
        normalize_throttle ⟨HID_USAGE_PAGE_GENERIC, HID_USAGE_GENERIC_HATSWITCH, v, mn, mx⟩ := rfl
    have hX : (JoystickHidEvent.FromHidEvent cosf sinf pi2
        ⟨dev, ts, FixedVector.empty.push_back
          ⟨HID_USAGE_PAGE_GENERIC, HID_USAGE_GENERIC_HATSWITCH, v, mn, mx⟩,
          FixedVector.empty⟩).HatSwitch0X =
        some (match normalize_throttle
            ⟨HID_USAGE_PAGE_GENERIC, HID_USAGE_GENERIC_HATSWITCH, v, mn, mx⟩ with
          | some t => cosf (t * pi2) | none => 0) := rfl
    have hY : (JoystickHidEvent.FromHidEvent cosf sinf pi2
        ⟨dev, ts, FixedVector.empty.push_back
          ⟨HID_USAGE_PAGE_GENERIC, HID_USAGE_GENERIC_HATSWITCH, v, mn, mx⟩,
          FixedVector.empty⟩).HatSwitch0Y =
        some (match normalize_throttle
            ⟨HID_USAGE_PAGE_GENERIC, HID_USAGE_GENERIC_HATSWITCH, v, mn, mx⟩ with
          | some t => sinf (t * pi2) | none => 0) := rfl
    rw [h0, hX, hY, normalize_throttle_eq]
    by_cases h : mn ≤ v ∧ v ≤ mx <;> simp [h]
  · have h0 : (JoystickHidEvent.FromHidEvent cosf sinf pi2
        ⟨dev, ts, FixedVector.empty.push_back
          ⟨HID_USAGE_PAGE_GAME, HID_USAGE_GAME_POINT_OF_VIEW, v, mn, mx⟩,
          FixedVector.empty⟩).HatSwitch0 =
        normalize_throttle ⟨HID_USAGE_PAGE_GAME, HID_USAGE_GAME_POINT_OF_VIEW, v, mn, mx⟩ := rfl
    have hX : (JoystickHidEvent.FromHidEvent cosf sinf pi2
        ⟨dev, ts, FixedVector.empty.push_back
          ⟨HID_USAGE_PAGE_GAME, HID_USAGE_GAME_POINT_OF_VIEW, v, mn, mx⟩,
          FixedVector.empty⟩).HatSwitch0X =
        some (match normalize_throttle
            ⟨HID_USAGE_PAGE_GAME, HID_USAGE_GAME_POINT_OF_VIEW, v, mn, mx⟩ with
          | some t => cosf (t * pi2) | none => 0) := rfl
    have hY : (JoystickHidEvent.FromHidEvent cosf sinf pi2
        ⟨dev, ts, FixedVector.empty.push_back
          ⟨HID_USAGE_PAGE_GAME, HID_USAGE_GAME_POINT_OF_VIEW, v, mn, mx⟩,
          FixedVector.empty⟩).HatSwitch0Y =
        some (match normalize_throttle
            ⟨HID_USAGE_PAGE_GAME, HID_USAGE_GAME_POINT_OF_VIEW, v, mn, mx⟩ with
          | some t => sinf (t * pi2) | none => 0) := rfl
    rw [h0, hX, hY, normalize_throttle_eq]
    by_cases h : mn ≤ v ∧ v ≤ mx <;> simp [h]

/-- Claim C3 witness: in-range generic-desktop hat switch, value 3 in
`[0, 7]`. -/
theorem claim_C3_wit :
    (JoystickHidEvent.FromHidEvent (fun x => x) (fun x => x) 6
        ⟨0, 0, FixedVector.empty.push_back
          ⟨HID_USAGE_PAGE_GENERIC, HID_USAGE_GENERIC_HATSWITCH, 3, 0, 7⟩,
          FixedVector.empty⟩).HatSwitch0 =
      (if (0 : Int) ≤ 3 ∧ (3 : Int) ≤ 7 then
        some (clampf ((((3 : Int) : ℚ) - ((0 : Int) : ℚ)) /
            (((7 : Int) : ℚ) - ((0 : Int) : ℚ))) 0 1)
      else none) :=
  (claim_C3_thm (fun x => x) (fun x => x) 6 0 0
    HID_USAGE_PAGE_GENERIC HID_USAGE_GENERIC_HATSWITCH 3 0 7
    (Or.inl ⟨rfl, rfl⟩)).1

/-- Claim C5 (amended): the value loop applies later decoded entries over
earlier ones, so the Simulation-page value determines the shared slot exactly
when it appears after its generic-desktop counterpart in the decoded value
list (the original claim's "regardless of order" fails, see the
counterexample).  For each of the five overlapping pairs — Steering→X,
Accelerator→Y, Brake→Z, Rudder→RotZ, Throttle→Slider0 — with the
generic-desktop field first and the Simulation field second, the Simulation
value wins. -/
theorem claim_C5_thm (cosf sinf : ℚ → ℚ) (pi2 : ℚ) (dev : Nat) (ts : Int)
    (gv gmn gmx sv smn smx : Int) :
    (JoystickHidEvent.FromHidEvent cosf sinf pi2
        ⟨dev, ts,
          (FixedVector.empty.push_back
            ⟨HID_USAGE_PAGE_GENERIC, HID_USAGE_GENERIC_X, gv, gmn, gmx⟩).push_back
            ⟨HID_USAGE_PAGE_SIMULATION, HID_USAGE_SIMULATION_STEERING, sv, smn, smx⟩,
          FixedVector.empty⟩).X =
      some (normalize_axis
        ⟨HID_USAGE_PAGE_SIMULATION, HID_USAGE_SIMULATION_STEERING, sv, smn, smx⟩) ∧
    (JoystickHidEvent.FromHidEvent cosf sinf pi2
        ⟨dev, ts,
          (FixedVector.empty.push_back
            ⟨HID_USAGE_PAGE_GENERIC, HID_USAGE_GENERIC_Y, gv, gmn, gmx⟩).push_back
            ⟨HID_USAGE_PAGE_SIMULATION, HID_USAGE_SIMULATION_ACCELLERATOR, sv, smn, smx⟩,
          FixedVector.empty⟩).Y =
      some (normalize_axis
        ⟨HID_USAGE_PAGE_SIMULATION, HID_USAGE_SIMULATION_ACCELLERATOR, sv, smn, smx⟩) ∧
    (JoystickHidEvent.FromHidEvent cosf sinf pi2
        ⟨dev, ts,
          (FixedVector.empty.push_back
            ⟨HID_USAGE_PAGE_GENERIC, HID_USAGE_GENERIC_Z, gv, gmn, gmx⟩).push_back
            ⟨HID_USAGE_PAGE_SIMULATION, HID_USAGE_SIMULATION_BRAKE, sv, smn, smx⟩,
          FixedVector.empty⟩).Z =
      some (normalize_axis
        ⟨HID_USAGE_PAGE_SIMULATION, HID_USAGE_SIMULATION_BRAKE, sv, smn, smx⟩) ∧
    (JoystickHidEvent.FromHidEvent cosf sinf pi2
        ⟨dev, ts,
          (FixedVector.empty.push_back
            ⟨HID_USAGE_PAGE_GENERIC, HID_USAGE_GENERIC_RZ, gv, gmn, gmx⟩).push_back
            ⟨HID_USAGE_PAGE_SIMULATION, HID_USAGE_SIMULATION_RUDDER, sv, smn, smx⟩,
          FixedVector.empty⟩).RotZ =
      some (normalize_axis
        ⟨HID_USAGE_PAGE_SIMULATION, HID_USAGE_SIMULATION_RUDDER, sv, smn, smx⟩) ∧
    (JoystickHidEvent.FromHidEvent cosf sinf pi2
        ⟨dev, ts,
          (FixedVector.empty.push_back
            ⟨HID_USAGE_PAGE_GENERIC, HID_USAGE_GENERIC_SLIDER, gv, gmn, gmx⟩).push_back
            ⟨HID_USAGE_PAGE_SIMULATION, HID_USAGE_SIMULATION_THROTTLE, sv, smn, smx⟩,
          FixedVector.empty⟩).Slider0 =
      normalize_throttle
        ⟨HID_USAGE_PAGE_SIMULATION, HID_USAGE_SIMULATION_THROTTLE, sv, smn, smx⟩ :=
  ⟨rfl, rfl, rfl, rfl, rfl⟩

/-- Claim C9: for a HID-type report whose device handle is absent from the
capability cache or cached as a failed (null) resolution, `ProcessWMInput`
performs no HID-level callback invocation and does not crash (no null
dereference, normal return); a keyboard-type report still invokes the
registered keyboard callback regardless of the cache state. -/
theorem claim_C9_thm (cosf sinf : ℚ → ℚ) (pi2 : ℚ) (cbs : CallbacksPresent)
    (cache : Nat → Option (Option HidDeviceCaps)) (now : Int) (d d2 : RawData)
    (hd : d.dwType = DwType.hid)
    (hcache : cache d.hDevice = none ∨ cache d.hDevice = some none)
    (hd2 : d2.dwType = DwType.keyboard) (hk : cbs.keyboard = true) :
    (processWMInput cosf sinf pi2 cbs cache now (some d)).2 = false ∧
    (processWMInput cosf sinf pi2 cbs cache now (some d)).1.all
      (fun i => !i.isHidLevel) = true ∧
    Invocation.keyboardEvent d2.hDevice ∈
      (processWMInput cosf sinf pi2 cbs cache now (some d2)).1 := by
  refine ⟨rfl, ?_, ?_⟩
  · simp only [processWMInput, hd]
    rcases hcache with hc | hc <;>
      cases hr : cbs.raw <;>
        simp [hc, Invocation.isHidLevel]
  · simp only [processWMInput, hd2, hk]
    cases hr : cbs.raw <;> simp

/-- Claim C9 witness: concrete cache-miss HID report and keyboard report. -/
theorem claim_C9_wit :
    (processWMInput (fun x => x) (fun x => x) 0 ⟨true, true, true, true, true⟩
      (fun _ => none) 0 (some ⟨DwType.hid, 7, [], []⟩)).2 = false ∧
    (processWMInput (fun x => x) (fun x => x) 0 ⟨true, true, true, true, true⟩
      (fun _ => none) 0 (some ⟨DwType.hid, 7, [], []⟩)).1.all
      (fun i => !i.isHidLevel) = true ∧
    Invocation.keyboardEvent 8 ∈
      (processWMInput (fun x => x) (fun x => x) 0 ⟨true, true, true, true, true⟩
        (fun _ => none) 0 (some ⟨DwType.keyboard, 8, [], []⟩)).1 :=
  claim_C9_thm (fun x => x) (fun x => x) 0 ⟨true, true, true, true, true⟩
    (fun _ => none) 0 ⟨DwType.hid, 7, [], []⟩ ⟨DwType.keyboard, 8, [], []⟩
    rfl (Or.inl rfl) rfl rfl

/-- Claim C10: `FixedVector` keeps `count ≤ capacity` under every operation —
`push_back` preserves the bound and silently discards the item (leaving the
vector unchanged) when full, `clear` resets `count` to zero, and the
`begin()`/`end()` iteration range has exactly `count` elements — and
consequently the `Values` and `Buttons` lists of any `HidEvent::Parse` result
never exceed their declared capacities of 16. -/
theorem claim_C10_thm (T : Type) (cap : Nat) (v : FixedVector T cap) (x : T)
    (dev : Nat) (ts : Int) (caps : Option HidDeviceCaps)
    (ov : List (Option Nat)) (ob : List (Option (List Nat)))
    (hv : v.count ≤ cap) (hw : v.WF) :
    (v.push_back x).count ≤ cap ∧
    (¬ v.count < cap → v.push_back x = v) ∧
    v.clear.count = 0 ∧
    v.toList.length = v.count ∧
    (HidEvent.Parse dev ts caps ov ob).Values.count ≤ kMaxCountOfValues ∧
    (HidEvent.Parse dev ts caps ov ob).Buttons.count ≤ kMaxCountOfButtonPages := by
  refine ⟨FixedVector.push_back_count_le v x hv, ?_, rfl, ?_, ?_, ?_⟩
  · intro h
    unfold FixedVector.push_back FixedVector.size FixedVector.capacity
    rw [if_neg h]
  · rw [FixedVector.toList, List.length_take, FixedVector.WF.eq_def] at *
    omega
  · cases caps with
    | none => exact Nat.zero_le _
    | some c =>
      refine foldl_push_count_le _ ?_ _ _ (Nat.zero_le _)
      rintro acc ⟨vc, o⟩ h
      cases o with
      | none => exact h
      | some w => exact FixedVector.push_back_count_le _ _ h
  · cases caps with
    | none => exact Nat.zero_le _
    | some c =>
      refine foldl_push_count_le _ ?_ _ _ (Nat.zero_le _)
      rintro acc ⟨bc, o⟩ h
      cases o with
      | none => exact h
      | some w => exact FixedVector.push_back_count_le _ _ h

/-- Claim C10 witness: a full two-slot vector discards a further `push_back`,
and an empty-caps parse stays within the capacity bounds. -/
theorem claim_C10_wit :
    ((⟨[0, 0], 2⟩ : FixedVector Nat 2).push_back 5).count ≤ 2 ∧
    (¬ (⟨[0, 0], 2⟩ : FixedVector Nat 2).count < 2 →
      (⟨[0, 0], 2⟩ : FixedVector Nat 2).push_back 5 = ⟨[0, 0], 2⟩) ∧
    (⟨[0, 0], 2⟩ : FixedVector Nat 2).clear.count = 0 ∧
    (⟨[0, 0], 2⟩ : FixedVector Nat 2).toList.length =
      (⟨[0, 0], 2⟩ : FixedVector Nat 2).count ∧
    (HidEvent.Parse 0 0 none [] []).Values.count ≤ kMaxCountOfValues ∧
    (HidEvent.Parse 0 0 none [] []).Buttons.count ≤ kMaxCountOfButtonPages :=
  claim_C10_thm Nat 2 ⟨[0, 0], 2⟩ 5 0 0 none [] [] (by decide) rfl

end LibRawInput
